import Mathlib

/-!
Verification of the SignalWire Rust client (src/client.rs, src/types.rs,
src/errors.rs) against its natural-language specification.

Embedding conventions:
* The HTTP transport (reqwest) and the JSON serialization library
  (serde_json) are external collaborators, declared out of scope by the
  spec.  A received HTTP response is modelled as a status code plus the
  body text; `serde_json::from_str::<T>` is modelled as a parameter
  `parse : String → Except String α` (the `String` error is the
  serde diagnostic rendered by `e.to_string()`).
* Each client method `m` is modelled by a function that maps the received
  response to the method's `Result`, translated line by line from the
  status-code branches of the Rust source.  The network send itself and
  transport failures (`SignalWireError::HttpError`) happen before the
  modelled mapping and are not claims under study here.
* Machine integers: HTTP status codes are small naturals, JSON numbers are
  modelled as `Int` (no floating-point value is involved in any claim).
-/

namespace SignalWire

/-- The error taxonomy, translated from `src/errors.rs` (`SignalWireError`). -/
inductive SignalWireError : Type where
  | HttpError (msg : String)
  | Unauthorized
  | NotFound (msg : String)
  | Unexpected (msg : String)
  deriving DecidableEq, Repr

/-- A received HTTP response: numeric status code and body text (the value of
`response.status()` and `response.text().await`). -/
structure HttpResponse where
  status : Nat
  body : String
  deriving DecidableEq, Repr

/-- Model of `reqwest::StatusCode::is_client_error`: 400 ≤ status ≤ 499. -/
def isClientError (s : Nat) : Bool := 400 ≤ s && s ≤ 499

/-- Model of `reqwest::StatusCode::is_server_error`: 500 ≤ status ≤ 599. -/
def isServerError (s : Nat) : Bool := 500 ≤ s && s ≤ 599

/-- Translation of `JwtResponse` from `src/types.rs`. -/
structure JwtResponse where
  jwt_token : String
  refresh_token : String
  deriving DecidableEq, Repr

/-- Substring containment: `sub` occurs contiguously inside `msg`. -/
def containsStr (msg sub : String) : Prop :=
  ∃ pre post : String, msg = pre ++ sub ++ post

/-- Response mapping of `get_jwt` (client.rs lines 61-70): only 401 is
special-cased; every other status proceeds to body parsing. -/
def get_jwt {α : Type} (parse : String → Except String α)
    (r : HttpResponse) : Except SignalWireError α :=
  if r.status = 401 then
    .error .Unauthorized
  else
    match parse r.body with
    | .error e => .error (.Unexpected e)
    | .ok v => .ok v

/-- Response mapping of `get_phone_numbers_available` (client.rs lines
120-130): no 401 special case, only the generic client/server-error branch. -/
def get_phone_numbers_available {α : Type} (parse : String → Except String α)
    (r : HttpResponse) : Except SignalWireError α :=
  if isClientError r.status || isServerError r.status then
    .error (.Unexpected r.body)
  else
    match parse r.body with
    | .error e => .error (.Unexpected e)
    | .ok v => .ok v

/-- Response mapping of `get_phone_numbers_owned` (client.rs lines 178-189). -/
def get_phone_numbers_owned {α : Type} (parse : String → Except String α)
    (r : HttpResponse) : Except SignalWireError α :=
  if r.status = 401 then
    .error .Unauthorized
  else if isClientError r.status || isServerError r.status then
    .error (.Unexpected r.body)
  else
    match parse r.body with
    | .error e => .error (.Unexpected e)
    | .ok v => .ok v

/-- Response mapping of `buy_phone_number` (client.rs lines 243-253): no 401
special case, only the generic client/server-error branch. -/
def buy_phone_number {α : Type} (parse : String → Except String α)
    (r : HttpResponse) : Except SignalWireError α :=
  if isClientError r.status || isServerError r.status then
    .error (.Unexpected r.body)
  else
    match parse r.body with
    | .error e => .error (.Unexpected e)
    | .ok v => .ok v

/-- Response mapping of `send_sms` (client.rs lines 308-319).  The parse
failure message is `format!("Failed to parse response: {}. Response was: {}",
e, response_text)`. -/
def send_sms {α : Type} (parse : String → Except String α)
    (r : HttpResponse) : Except SignalWireError α :=
  if r.status = 401 then
    .error .Unauthorized
  else if isClientError r.status || isServerError r.status then
    .error (.Unexpected r.body)
  else
    match parse r.body with
    | .error e =>
        .error (.Unexpected ("Failed to parse response: " ++ e ++ ". Response was: " ++ r.body))
    | .ok v => .ok v

/-- Response mapping of `get_message_status` (client.rs lines 375-388). -/
def get_message_status {α : Type} (message_sid : String)
    (parse : String → Except String α) (r : HttpResponse) :
    Except SignalWireError α :=
  if r.status = 401 then
    .error .Unauthorized
  else if r.status = 404 then
    .error (.NotFound ("Message with SID " ++ message_sid ++ " not found"))
  else if isClientError r.status || isServerError r.status then
    .error (.Unexpected r.body)
  else
    match parse r.body with
    | .error e =>
        .error (.Unexpected ("Failed to parse response: " ++ e ++ ". Response was: " ++ r.body))
    | .ok v => .ok v

/-- Response mapping of `list_subprojects` (client.rs lines 447-458). -/
def list_subprojects {α : Type} (parse : String → Except String α)
    (r : HttpResponse) : Except SignalWireError α :=
  if r.status = 401 then
    .error .Unauthorized
  else if isClientError r.status || isServerError r.status then
    .error (.Unexpected r.body)
  else
    match parse r.body with
    | .error e =>
        .error (.Unexpected ("Failed to parse response: " ++ e ++ ". Response was: " ++ r.body))
    | .ok v => .ok v

/-- Response mapping of `get_subproject` (client.rs lines 511-524). -/
def get_subproject {α : Type} (subproject_sid : String)
    (parse : String → Except String α) (r : HttpResponse) :
    Except SignalWireError α :=
  if r.status = 401 then
    .error .Unauthorized
  else if r.status = 404 then
    .error (.NotFound ("Subproject with SID " ++ subproject_sid ++ " not found"))
  else if isClientError r.status || isServerError r.status then
    .error (.Unexpected r.body)
  else
    match parse r.body with
    | .error e =>
        .error (.Unexpected ("Failed to parse response: " ++ e ++ ". Response was: " ++ r.body))
    | .ok v => .ok v

/-- Response mapping of `create_subproject` (client.rs lines 580-591). -/
def create_subproject {α : Type} (parse : String → Except String α)
    (r : HttpResponse) : Except SignalWireError α :=
  if r.status = 401 then
    .error .Unauthorized
  else if isClientError r.status || isServerError r.status then
    .error (.Unexpected r.body)
  else
    match parse r.body with
    | .error e =>
        .error (.Unexpected ("Failed to parse response: " ++ e ++ ". Response was: " ++ r.body))
    | .ok v => .ok v

/-- Response mapping of `update_subproject` (client.rs lines 652-665). -/
def update_subproject {α : Type} (subproject_sid : String)
    (parse : String → Except String α) (r : HttpResponse) :
    Except SignalWireError α :=
  if r.status = 401 then
    .error .Unauthorized
  else if r.status = 404 then
    .error (.NotFound ("Subproject with SID " ++ subproject_sid ++ " not found"))
  else if isClientError r.status || isServerError r.status then
    .error (.Unexpected r.body)
  else
    match parse r.body with
    | .error e =>
        .error (.Unexpected ("Failed to parse response: " ++ e ++ ". Response was: " ++ r.body))
    | .ok v => .ok v

/-- Response mapping of `delete_subproject` (client.rs lines 721-733): no
body parsing, success is the unit value. -/
def delete_subproject (subproject_sid : String) (r : HttpResponse) :
    Except SignalWireError Unit :=
  if r.status = 401 then
    .error .Unauthorized
  else if r.status = 404 then
    .error (.NotFound ("Subproject with SID " ++ subproject_sid ++ " not found"))
  else if isClientError r.status || isServerError r.status then
    .error (.Unexpected r.body)
  else
    .ok ()

/-- Response mapping of `get_subproject_phone_numbers` (client.rs lines
799-813) for the phone-number listing request itself (the method first
issues a `get_subproject` pre-flight call, modelled by `get_subproject`). -/
def get_subproject_phone_numbers {α : Type} (subproject_sid : String)
    (parse : String → Except String α) (r : HttpResponse) :
    Except SignalWireError α :=
  if r.status = 401 then
    .error .Unauthorized
  else if r.status = 404 then
    .error (.NotFound ("Subproject with SID " ++ subproject_sid ++ " not found"))
  else if isClientError r.status || isServerError r.status then
    .error (.Unexpected r.body)
  else
    match parse r.body with
    | .error e =>
        .error (.Unexpected ("Failed to parse response: " ++ e ++ ". Response was: " ++ r.body))
    | .ok v => .ok v

/-- Model of `str::to_lowercase` from Rust, restricted to its ASCII action, which is
all the message-status literals exercise (`Char.toLower` lowers exactly the
ASCII uppercase letters, as Rust does on ASCII input). -/
def toLowerStr (s : String) : String := ⟨s.data.map Char.toLower⟩

/-- Translation of `MessageStatus` from `src/types.rs`. -/
inductive MessageStatus : Type where
  | Queued
  | Sending
  | Sent
  | Delivered
  | Failed
  | Undelivered
  | Unknown
  deriving DecidableEq, Repr

/-- Translation of `impl From<&str> for MessageStatus` (types.rs lines 302-314). -/
def MessageStatus.fromStr (status : String) : MessageStatus :=
  match toLowerStr status with
  | "queued" => .Queued
  | "sending" => .Sending
  | "sent" => .Sent
  | "delivered" => .Delivered
  | "failed" => .Failed
  | "undelivered" => .Undelivered
  | _ => .Unknown

/-- Translation of `impl Display for MessageStatus` (types.rs lines 316-328). -/
def MessageStatus.render : MessageStatus → String
  | .Queued => "queued"
  | .Sending => "sending"
  | .Sent => "sent"
  | .Delivered => "delivered"
  | .Failed => "failed"
  | .Undelivered => "undelivered"
  | .Unknown => "unknown"

/-- Rust `bool::to_string`. -/
def rustBoolToString (b : Bool) : String := if b then "true" else "false"

/-- Translation of `PhoneNumberAvailableQueryParams` (types.rs lines 9-77): a fluent
accumulator over an ordered list of query pairs (`Vec<(String, String)>`). -/
structure PhoneNumberAvailableQueryParams where
  params : List (String × String)
  deriving DecidableEq, Repr

namespace PhoneNumberAvailableQueryParams

def new : PhoneNumberAvailableQueryParams := ⟨[]⟩

def area_code (b : PhoneNumberAvailableQueryParams) (code : String) :
    PhoneNumberAvailableQueryParams := ⟨b.params ++ [("AreaCode", code)]⟩

def beta (b : PhoneNumberAvailableQueryParams) (v : Bool) :
    PhoneNumberAvailableQueryParams := ⟨b.params ++ [("Beta", rustBoolToString v)]⟩

def contains (b : PhoneNumberAvailableQueryParams) (value : String) :
    PhoneNumberAvailableQueryParams := ⟨b.params ++ [("Contains", value)]⟩

def exclude_all_address_required (b : PhoneNumberAvailableQueryParams) (v : Bool) :
    PhoneNumberAvailableQueryParams :=
  ⟨b.params ++ [("ExcludeAllAddressRequired", rustBoolToString v)]⟩

def exclude_foreign_address_required (b : PhoneNumberAvailableQueryParams) (v : Bool) :
    PhoneNumberAvailableQueryParams :=
  ⟨b.params ++ [("ExcludeForeignAddressRequired", rustBoolToString v)]⟩

def exclude_local_address_required (b : PhoneNumberAvailableQueryParams) (v : Bool) :
    PhoneNumberAvailableQueryParams :=
  ⟨b.params ++ [("ExcludeLocalAddressRequired", rustBoolToString v)]⟩

def fax_enabled (b : PhoneNumberAvailableQueryParams) (v : Bool) :
    PhoneNumberAvailableQueryParams := ⟨b.params ++ [("FaxEnabled", rustBoolToString v)]⟩

def in_region (b : PhoneNumberAvailableQueryParams) (region : String) :
    PhoneNumberAvailableQueryParams := ⟨b.params ++ [("InRegion", region)]⟩

def mms_enabled (b : PhoneNumberAvailableQueryParams) (v : Bool) :
    PhoneNumberAvailableQueryParams := ⟨b.params ++ [("MmsEnabled", rustBoolToString v)]⟩

def sms_enabled (b : PhoneNumberAvailableQueryParams) (v : Bool) :
    PhoneNumberAvailableQueryParams := ⟨b.params ++ [("SmsEnabled", rustBoolToString v)]⟩

def voice_enabled (b : PhoneNumberAvailableQueryParams) (v : Bool) :
    PhoneNumberAvailableQueryParams := ⟨b.params ++ [("VoiceEnabled", rustBoolToString v)]⟩

def build (b : PhoneNumberAvailableQueryParams) : List (String × String) := b.params

end PhoneNumberAvailableQueryParams

/-- One chained call on `PhoneNumberAvailableQueryParams`, for quantifying
over arbitrary call sequences. -/
inductive AvailCall : Type where
  | area_code (code : String)
  | beta (v : Bool)
  | contains (value : String)
  | exclude_all_address_required (v : Bool)
  | exclude_foreign_address_required (v : Bool)
  | exclude_local_address_required (v : Bool)
  | fax_enabled (v : Bool)
  | in_region (region : String)
  | mms_enabled (v : Bool)
  | sms_enabled (v : Bool)
  | voice_enabled (v : Bool)

/-- The pair a single `PhoneNumberAvailableQueryParams` call appends. -/
def AvailCall.pair : AvailCall → String × String
  | .area_code code => ("AreaCode", code)
  | .beta v => ("Beta", rustBoolToString v)
  | .contains value => ("Contains", value)
  | .exclude_all_address_required v => ("ExcludeAllAddressRequired", rustBoolToString v)
  | .exclude_foreign_address_required v => ("ExcludeForeignAddressRequired", rustBoolToString v)
  | .exclude_local_address_required v => ("ExcludeLocalAddressRequired", rustBoolToString v)
  | .fax_enabled v => ("FaxEnabled", rustBoolToString v)
  | .in_region region => ("InRegion", region)
  | .mms_enabled v => ("MmsEnabled", rustBoolToString v)
  | .sms_enabled v => ("SmsEnabled", rustBoolToString v)
  | .voice_enabled v => ("VoiceEnabled", rustBoolToString v)

/-- Dispatch one call to the corresponding builder method. -/
def AvailCall.apply (b : PhoneNumberAvailableQueryParams) : AvailCall →
    PhoneNumberAvailableQueryParams
  | .area_code code => b.area_code code
  | .beta v => b.beta v
  | .contains value => b.contains value
  | .exclude_all_address_required v => b.exclude_all_address_required v
  | .exclude_foreign_address_required v => b.exclude_foreign_address_required v
  | .exclude_local_address_required v => b.exclude_local_address_required v
  | .fax_enabled v => b.fax_enabled v
  | .in_region region => b.in_region region
  | .mms_enabled v => b.mms_enabled v
  | .sms_enabled v => b.sms_enabled v
  | .voice_enabled v => b.voice_enabled v

/-- A whole chain of calls, left to right. -/
def AvailCall.applyAll (b : PhoneNumberAvailableQueryParams)
    (cs : List AvailCall) : PhoneNumberAvailableQueryParams :=
  cs.foldl AvailCall.apply b

/-- Translation of `PhoneNumberOwnedFilterParams` (types.rs lines 111-134). -/
structure PhoneNumberOwnedFilterParams where
  params : List (String × String)
  deriving DecidableEq, Repr

namespace PhoneNumberOwnedFilterParams

def new : PhoneNumberOwnedFilterParams := ⟨[]⟩

def filter_name (b : PhoneNumberOwnedFilterParams) (name : String) :
    PhoneNumberOwnedFilterParams := ⟨b.params ++ [("filter_name", name)]⟩

def filter_number (b : PhoneNumberOwnedFilterParams) (number : String) :
    PhoneNumberOwnedFilterParams := ⟨b.params ++ [("filter_number", number)]⟩

def build (b : PhoneNumberOwnedFilterParams) : List (String × String) := b.params

end PhoneNumberOwnedFilterParams

/-- One chained call on `PhoneNumberOwnedFilterParams`. -/
inductive OwnedCall : Type where
  | filter_name (name : String)
  | filter_number (number : String)

def OwnedCall.pair : OwnedCall → String × String
  | .filter_name name => ("filter_name", name)
  | .filter_number number => ("filter_number", number)

def OwnedCall.apply (b : PhoneNumberOwnedFilterParams) : OwnedCall →
    PhoneNumberOwnedFilterParams
  | .filter_name name => b.filter_name name
  | .filter_number number => b.filter_number number

def OwnedCall.applyAll (b : PhoneNumberOwnedFilterParams)
    (cs : List OwnedCall) : PhoneNumberOwnedFilterParams :=
  cs.foldl OwnedCall.apply b

/-- Translation of `SubprojectQueryParams` (types.rs lines 393-416). -/
structure SubprojectQueryParams where
  params : List (String × String)
  deriving DecidableEq, Repr

namespace SubprojectQueryParams

def new : SubprojectQueryParams := ⟨[]⟩

def friendly_name (b : SubprojectQueryParams) (name : String) :
    SubprojectQueryParams := ⟨b.params ++ [("FriendlyName", name)]⟩

def status (b : SubprojectQueryParams) (v : String) :
    SubprojectQueryParams := ⟨b.params ++ [("Status", v)]⟩

def build (b : SubprojectQueryParams) : List (String × String) := b.params

end SubprojectQueryParams

/-- One chained call on `SubprojectQueryParams`. -/
inductive SubprojectCall : Type where
  | friendly_name (name : String)
  | status (v : String)

def SubprojectCall.pair : SubprojectCall → String × String
  | .friendly_name name => ("FriendlyName", name)
  | .status v => ("Status", v)

def SubprojectCall.apply (b : SubprojectQueryParams) : SubprojectCall →
    SubprojectQueryParams
  | .friendly_name name => b.friendly_name name
  | .status v => b.status v

def SubprojectCall.applyAll (b : SubprojectQueryParams)
    (cs : List SubprojectCall) : SubprojectQueryParams :=
  cs.foldl SubprojectCall.apply b

/-- Translation of `PhoneLookupParams` (types.rs lines 554-580). -/
structure PhoneLookupParams where
  params : List (String × String)
  deriving DecidableEq, Repr

namespace PhoneLookupParams

def new : PhoneLookupParams := ⟨[]⟩

def with_carrier (b : PhoneLookupParams) : PhoneLookupParams :=
  ⟨b.params ++ [("Type", "carrier")]⟩

def with_caller_name (b : PhoneLookupParams) : PhoneLookupParams :=
  ⟨b.params ++ [("Type", "caller-name")]⟩

def build (b : PhoneLookupParams) : List (String × String) := b.params

end PhoneLookupParams

/-- One chained call on `PhoneLookupParams`. -/
inductive LookupCall : Type where
  | with_carrier
  | with_caller_name

def LookupCall.pair : LookupCall → String × String
  | .with_carrier => ("Type", "carrier")
  | .with_caller_name => ("Type", "caller-name")

def LookupCall.apply (b : PhoneLookupParams) : LookupCall → PhoneLookupParams
  | .with_carrier => b.with_carrier
  | .with_caller_name => b.with_caller_name

def LookupCall.applyAll (b : PhoneLookupParams) (cs : List LookupCall) :
    PhoneLookupParams :=
  cs.foldl LookupCall.apply b

/-- A JSON value.  Numbers are modelled as integers: every numeric field a
claim touches (`num_segments`, `num_media`) is an `i32`; the float-valued
`price` field is only ever exercised as `null`. -/
inductive Json : Type where
  | null
  | bool (b : Bool)
  | num (n : Int)
  | str (s : String)
  | arr (elems : List Json)
  | obj (fields : List (String × Json))

/-- First binding of a key in a JSON object's field list. -/
def jsonLookup (fields : List (String × Json)) (k : String) : Option Json :=
  match fields with
  | [] => none
  | (k₀, v) :: rest => if k₀ = k then some v else jsonLookup rest k

/-- serde: a required `String` field. -/
def getStrField (fields : List (String × Json)) (k : String) :
    Except String String :=
  match jsonLookup fields k with
  | some (.str s) => .ok s
  | some _ => .error ("invalid type for field " ++ k)
  | none => .error ("missing field " ++ k)

/-- serde: an `Option<String>` field — absent or `null` is `None`. -/
def getOptStrField (fields : List (String × Json)) (k : String) :
    Except String (Option String) :=
  match jsonLookup fields k with
  | none => .ok none
  | some .null => .ok none
  | some (.str s) => .ok (some s)
  | some _ => .error ("invalid type for field " ++ k)

/-- serde: a required integer field (`i32`). -/
def getIntField (fields : List (String × Json)) (k : String) :
    Except String Int :=
  match jsonLookup fields k with
  | some (.num n) => .ok n
  | some _ => .error ("invalid type for field " ++ k)
  | none => .error ("missing field " ++ k)

/-- serde: an `Option` numeric field — absent or `null` is `None`
(`price: Option<f64>`, exercised only with integral or null values). -/
def getOptNumField (fields : List (String × Json)) (k : String) :
    Except String (Option Int) :=
  match jsonLookup fields k with
  | none => .ok none
  | some .null => .ok none
  | some (.num n) => .ok (some n)
  | some _ => .error ("invalid type for field " ++ k)

/-- Translation of `SubresourceUris` (types.rs lines 284-288): its single field carries
`serde(default)`. -/
structure SubresourceUris where
  media : String
  deriving DecidableEq, Repr

/-- Deserialize `SubresourceUris`: a missing `media` field takes the
`String` default (the empty string). -/
def decodeSubresourceUris (j : Json) : Except String SubresourceUris :=
  match j with
  | .obj fields =>
    match jsonLookup fields "media" with
    | none => .ok ⟨""⟩
    | some (.str s) => .ok ⟨s⟩
    | some _ => .error "invalid type for field media"
  | _ => .error "invalid type: expected an object for SubresourceUris"

/-- Translation of `SmsResponse` (types.rs lines 245-268).  The Rust fields `to` and `from`
are Lean keywords and are embedded as `to_field` and `from_field`; their
serde keys stay `"to"` and `"from"` in `decodeSmsResponse`. -/
structure SmsResponse where
  sid : String
  date_created : String
  date_updated : String
  date_sent : Option String
  account_sid : String
  to_field : String
  from_field : String
  messaging_service_sid : Option String
  body : String
  status : String
  num_segments : Int
  num_media : Int
  direction : String
  api_version : String
  price : Option Int
  price_unit : Option String
  error_code : Option String
  error_message : Option String
  uri : String
  subresource_uris : SubresourceUris
  deriving DecidableEq, Repr

/-- Translation of `SmsResponse::get_status` (types.rs lines 270-282). -/
def SmsResponse.get_status (r : SmsResponse) : MessageStatus :=
  MessageStatus.fromStr r.status

/-- Deserialize `SmsResponse` from a JSON value, field for field after the
serde derive on types.rs lines 245-268: every non-`Option` field is
required, `Option` fields accept absence or `null`, `subresource_uris`
carries `serde(default)` so absence yields the default value, and unknown
fields are ignored (serde's default behavior). -/
def decodeSmsResponse (j : Json) : Except String SmsResponse :=
  match j with
  | .obj fields => do
    let sid ← getStrField fields "sid"
    let date_created ← getStrField fields "date_created"
    let date_updated ← getStrField fields "date_updated"
    let date_sent ← getOptStrField fields "date_sent"
    let account_sid ← getStrField fields "account_sid"
    let to_field ← getStrField fields "to"
    let from_field ← getStrField fields "from"
    let messaging_service_sid ← getOptStrField fields "messaging_service_sid"
    let body ← getStrField fields "body"
    let status ← getStrField fields "status"
    let num_segments ← getIntField fields "num_segments"
    let num_media ← getIntField fields "num_media"
    let direction ← getStrField fields "direction"
    let api_version ← getStrField fields "api_version"
    let price ← getOptNumField fields "price"
    let price_unit ← getOptStrField fields "price_unit"
    let error_code ← getOptStrField fields "error_code"
    let error_message ← getOptStrField fields "error_message"
    let uri ← getStrField fields "uri"
    let subresource_uris ←
      match jsonLookup fields "subresource_uris" with
      | none => Except.ok (⟨""⟩ : SubresourceUris)
      | some sub => decodeSubresourceUris sub
    .ok {
      sid, date_created, date_updated, date_sent, account_sid, to_field,
      from_field, messaging_service_sid, body, status, num_segments,
      num_media, direction, api_version, price, price_unit, error_code,
      error_message, uri, subresource_uris }
  | _ => .error "invalid type: expected an object for SmsResponse"

/-- The canned SMS-send response body from the spec's round-trip scenario:
a body matching the `SmsResponse` schema whose distinguished fields are
`sid="SM123"`, `from="+15551234567"`, `to="+15559876543"`, `body="hi"`,
`status="queued"`. -/
def cannedSmsBody : Json :=
  .obj [
    ("sid", .str "SM123"),
    ("date_created", .str "Wed, 01 Jan 2025 00:00:00 +0000"),
    ("date_updated", .str "Wed, 01 Jan 2025 00:00:00 +0000"),
    ("date_sent", .null),
    ("account_sid", .str "AC123"),
    ("to", .str "+15559876543"),
    ("from", .str "+15551234567"),
    ("messaging_service_sid", .null),
    ("body", .str "hi"),
    ("status", .str "queued"),
    ("num_segments", .num 1),
    ("num_media", .num 0),
    ("direction", .str "outbound-api"),
    ("api_version", .str "2010-04-01"),
    ("price", .null),
    ("price_unit", .str "USD"),
    ("error_code", .null),
    ("error_message", .null),
    ("uri", .str "/api/laml/2010-04-01/Accounts/AC123/Messages/SM123")]

/-- Translation of `BuyPhoneNumberRequest` (types.rs lines 192-195). -/
structure BuyPhoneNumberRequest where
  number : String
  deriving DecidableEq, Repr

/-- Serialization of `BuyPhoneNumberRequest` after its serde derive: a JSON
object with the single field `number`. -/
def serializeBuyPhoneNumberRequest (r : BuyPhoneNumberRequest) : Json :=
  .obj [("number", .str r.number)]

/-- The JSON request body `buy_phone_number` sends (client.rs line 238):
`.json(&BuyPhoneNumberRequest { number: phone_number.to_string() })`. -/
def buy_phone_number_request_body (phone_number : String) : Json :=
  serializeBuyPhoneNumberRequest { number := phone_number }

/-- The reqwest HTTP transport handle, opaque to this crate's logic. -/
structure HttpClient where
  handle : Nat
  deriving DecidableEq, Repr

/-- Translation of `SignalWireClient` (client.rs lines 5-11). -/
structure SignalWireClient where
  project_id : String
  api_key : String
  space_name : String
  http_client : HttpClient
  deriving DecidableEq, Repr

/-- Translation of `SignalWireClient::new` (client.rs lines 25-32). -/
def SignalWireClient.new (space_name project_id api_key : String)
    (http_client : HttpClient) : SignalWireClient :=
  { space_name, project_id, api_key, http_client }

/-- One whole client call, returning the client state the method leaves
behind next to the method's `Result`.  Every method of the Rust client
takes `&self` and only reads the four fields, so the resulting state is
rebuilt from exactly those reads. -/
def get_jwt_call {α : Type} (c : SignalWireClient)
    (parse : String → Except String α) (r : HttpResponse) :
    SignalWireClient × Except SignalWireError α :=
  (⟨c.project_id, c.api_key, c.space_name, c.http_client⟩, get_jwt parse r)

def get_phone_numbers_available_call {α : Type} (c : SignalWireClient)
    (parse : String → Except String α) (r : HttpResponse) :
    SignalWireClient × Except SignalWireError α :=
  (⟨c.project_id, c.api_key, c.space_name, c.http_client⟩,
    get_phone_numbers_available parse r)

def get_phone_numbers_owned_call {α : Type} (c : SignalWireClient)
    (parse : String → Except String α) (r : HttpResponse) :
    SignalWireClient × Except SignalWireError α :=
  (⟨c.project_id, c.api_key, c.space_name, c.http_client⟩,
    get_phone_numbers_owned parse r)

def buy_phone_number_call {α : Type} (c : SignalWireClient)
    (parse : String → Except String α) (r : HttpResponse) :
    SignalWireClient × Except SignalWireError α :=
  (⟨c.project_id, c.api_key, c.space_name, c.http_client⟩,
    buy_phone_number parse r)

def send_sms_call {α : Type} (c : SignalWireClient)
    (parse : String → Except String α) (r : HttpResponse) :
    SignalWireClient × Except SignalWireError α :=
  (⟨c.project_id, c.api_key, c.space_name, c.http_client⟩, send_sms parse r)

def get_message_status_call {α : Type} (c : SignalWireClient)
    (message_sid : String) (parse : String → Except String α)
    (r : HttpResponse) : SignalWireClient × Except SignalWireError α :=
  (⟨c.project_id, c.api_key, c.space_name, c.http_client⟩,
    get_message_status message_sid parse r)

def list_subprojects_call {α : Type} (c : SignalWireClient)
    (parse : String → Except String α) (r : HttpResponse) :
    SignalWireClient × Except SignalWireError α :=
  (⟨c.project_id, c.api_key, c.space_name, c.http_client⟩,
    list_subprojects parse r)

def get_subproject_call {α : Type} (c : SignalWireClient)
    (subproject_sid : String) (parse : String → Except String α)
    (r : HttpResponse) : SignalWireClient × Except SignalWireError α :=
  (⟨c.project_id, c.api_key, c.space_name, c.http_client⟩,
    get_subproject subproject_sid parse r)

def create_subproject_call {α : Type} (c : SignalWireClient)
    (parse : String → Except String α) (r : HttpResponse) :
    SignalWireClient × Except SignalWireError α :=
  (⟨c.project_id, c.api_key, c.space_name, c.http_client⟩,
    create_subproject parse r)

def update_subproject_call {α : Type} (c : SignalWireClient)
    (subproject_sid : String) (parse : String → Except String α)
    (r : HttpResponse) : SignalWireClient × Except SignalWireError α :=
  (⟨c.project_id, c.api_key, c.space_name, c.http_client⟩,
    update_subproject subproject_sid parse r)

def delete_subproject_call (c : SignalWireClient) (subproject_sid : String)
    (r : HttpResponse) : SignalWireClient × Except SignalWireError Unit :=
  (⟨c.project_id, c.api_key, c.space_name, c.http_client⟩,
    delete_subproject subproject_sid r)

def get_subproject_phone_numbers_call {α : Type} (c : SignalWireClient)
    (subproject_sid : String) (parse : String → Except String α)
    (r : HttpResponse) : SignalWireClient × Except SignalWireError α :=
  (⟨c.project_id, c.api_key, c.space_name, c.http_client⟩,
    get_subproject_phone_numbers subproject_sid parse r)

/-! ## Theorems -/

/-- A single `PhoneNumberAvailableQueryParams` call appends its pair. -/
theorem availApply_build (b : PhoneNumberAvailableQueryParams) (c : AvailCall) :
    (AvailCall.apply b c).build = b.build ++ [c.pair] := by
  cases c <;> rfl

/-- Evaluation of `PhoneNumberAvailableQueryParams.build` after a chain of calls. -/
theorem availApplyAll_build (cs : List AvailCall)
    (b : PhoneNumberAvailableQueryParams) :
    (AvailCall.applyAll b cs).build = b.build ++ cs.map AvailCall.pair := by
  induction cs generalizing b with
  | nil => simp [AvailCall.applyAll, PhoneNumberAvailableQueryParams.build]
  | cons c rest ih =>
    show (AvailCall.applyAll (AvailCall.apply b c) rest).build = _
    rw [ih, availApply_build]
    simp

/-- A single `PhoneNumberOwnedFilterParams` call appends its pair. -/
theorem ownedApply_build (b : PhoneNumberOwnedFilterParams) (c : OwnedCall) :
    (OwnedCall.apply b c).build = b.build ++ [c.pair] := by
  cases c <;> rfl

/-- Evaluation of `PhoneNumberOwnedFilterParams.build` after a chain of calls. -/
theorem ownedApplyAll_build (cs : List OwnedCall)
    (b : PhoneNumberOwnedFilterParams) :
    (OwnedCall.applyAll b cs).build = b.build ++ cs.map OwnedCall.pair := by
  induction cs generalizing b with
  | nil => simp [OwnedCall.applyAll, PhoneNumberOwnedFilterParams.build]
  | cons c rest ih =>
    show (OwnedCall.applyAll (OwnedCall.apply b c) rest).build = _
    rw [ih, ownedApply_build]
    simp

/-- A single `SubprojectQueryParams` call appends its pair. -/
theorem subprojectApply_build (b : SubprojectQueryParams) (c : SubprojectCall) :
    (SubprojectCall.apply b c).build = b.build ++ [c.pair] := by
  cases c <;> rfl

/-- Evaluation of `SubprojectQueryParams.build` after a chain of calls. -/
theorem subprojectApplyAll_build (cs : List SubprojectCall)
    (b : SubprojectQueryParams) :
    (SubprojectCall.applyAll b cs).build = b.build ++ cs.map SubprojectCall.pair := by
  induction cs generalizing b with
  | nil => simp [SubprojectCall.applyAll, SubprojectQueryParams.build]
  | cons c rest ih =>
    show (SubprojectCall.applyAll (SubprojectCall.apply b c) rest).build = _
    rw [ih, subprojectApply_build]
    simp

/-- A single `PhoneLookupParams` call appends its pair. -/
theorem lookupApply_build (b : PhoneLookupParams) (c : LookupCall) :
    (LookupCall.apply b c).build = b.build ++ [c.pair] := by
  cases c <;> rfl

/-- Evaluation of `PhoneLookupParams.build` after a chain of calls. -/
theorem lookupApplyAll_build (cs : List LookupCall) (b : PhoneLookupParams) :
    (LookupCall.applyAll b cs).build = b.build ++ cs.map LookupCall.pair := by
  induction cs generalizing b with
  | nil => simp [LookupCall.applyAll, PhoneLookupParams.build]
  | cons c rest ih =>
    show (LookupCall.applyAll (LookupCall.apply b c) rest).build = _
    rw [ih, lookupApply_build]
    simp

/-- C4: the `MessageStatus` classification is total: a string that is one of
the six known literals in any letter case (that is, whose lowercasing is
that literal) maps to the matching variant, and every other string maps to
`Unknown`; being a Lean function, `MessageStatus.fromStr` never fails. -/
theorem c4_message_status_classification_total (s : String) :
    (toLowerStr s = "queued" → MessageStatus.fromStr s = .Queued) ∧
    (toLowerStr s = "sending" → MessageStatus.fromStr s = .Sending) ∧
    (toLowerStr s = "sent" → MessageStatus.fromStr s = .Sent) ∧
    (toLowerStr s = "delivered" → MessageStatus.fromStr s = .Delivered) ∧
    (toLowerStr s = "failed" → MessageStatus.fromStr s = .Failed) ∧
    (toLowerStr s = "undelivered" → MessageStatus.fromStr s = .Undelivered) ∧
    (toLowerStr s ∉
        (["queued", "sending", "sent", "delivered", "failed", "undelivered"] :
          List String) →
      MessageStatus.fromStr s = .Unknown) := by
  refine ⟨?_, ?_, ?_, ?_, ?_, ?_, ?_⟩ <;> intro h
  case _ => unfold MessageStatus.fromStr; rw [h]; decide
  case _ => unfold MessageStatus.fromStr; rw [h]; decide
  case _ => unfold MessageStatus.fromStr; rw [h]; decide
  case _ => unfold MessageStatus.fromStr; rw [h]; decide
  case _ => unfold MessageStatus.fromStr; rw [h]; decide
  case _ => unfold MessageStatus.fromStr; rw [h]; decide
  case _ =>
    unfold MessageStatus.fromStr
    split
    · simp_all
    · simp_all
    · simp_all
    · simp_all
    · simp_all
    · simp_all
    · rfl

/-- Concrete instances of C4: every known literal in a mixed letter case,
plus one unrecognized literal. -/
theorem c4_message_status_classification_total_witness :
    MessageStatus.fromStr "QuEuEd" = .Queued ∧
    MessageStatus.fromStr "SENDING" = .Sending ∧
    MessageStatus.fromStr "Sent" = .Sent ∧
    MessageStatus.fromStr "dElIvErEd" = .Delivered ∧
    MessageStatus.fromStr "FAILED" = .Failed ∧
    MessageStatus.fromStr "Undelivered" = .Undelivered ∧
    MessageStatus.fromStr "lost in space" = .Unknown :=
  ⟨(c4_message_status_classification_total "QuEuEd").1 (by decide),
   (c4_message_status_classification_total "SENDING").2.1 (by decide),
   (c4_message_status_classification_total "Sent").2.2.1 (by decide),
   (c4_message_status_classification_total "dElIvErEd").2.2.2.1 (by decide),
   (c4_message_status_classification_total "FAILED").2.2.2.2.1 (by decide),
   (c4_message_status_classification_total "Undelivered").2.2.2.2.2.1 (by decide),
   (c4_message_status_classification_total "lost in space").2.2.2.2.2.2 (by decide)⟩

/-- C10 (implicit): rendering and classification of message statuses round
trip on every variant, `Unknown` included, and classification depends on
its input only through the input's lowercasing, so it is invariant under
changes of letter case. -/
theorem c10_message_status_render_classify_round_trip :
    (∀ v : MessageStatus, MessageStatus.fromStr v.render = v) ∧
    (∀ s t : String, toLowerStr s = toLowerStr t →
      MessageStatus.fromStr s = MessageStatus.fromStr t) := by
  constructor
  · intro v
    cases v <;> decide
  · intro s t h
    unfold MessageStatus.fromStr
    rw [h]

/-- Concrete instances of C10: the round trip at `Queued` and `Unknown`, and
case-invariance between two spellings of `delivered`. -/
theorem c10_message_status_render_classify_round_trip_witness :
    MessageStatus.fromStr (MessageStatus.render .Queued) = .Queued ∧
    MessageStatus.fromStr (MessageStatus.render .Unknown) = .Unknown ∧
    MessageStatus.fromStr "DELIVERED" = MessageStatus.fromStr "Delivered" :=
  ⟨c10_message_status_render_classify_round_trip.1 .Queued,
   c10_message_status_render_classify_round_trip.1 .Unknown,
   c10_message_status_render_classify_round_trip.2 "DELIVERED" "Delivered" (by decide)⟩

/-- C6: every query-parameter builder is a pure order-preserving
accumulator: an arbitrary chain of calls started from `new` builds exactly
the appended (name, value) pairs in insertion order, with no deduplication;
in particular chaining `with_carrier` and `with_caller_name` keeps two
distinct `"Type"` pairs. -/
theorem c6_query_builders_preserve_insertion_order (cs₁ : List AvailCall)
    (cs₂ : List OwnedCall) (cs₃ : List SubprojectCall) (cs₄ : List LookupCall) :
    (AvailCall.applyAll PhoneNumberAvailableQueryParams.new cs₁).build =
      cs₁.map AvailCall.pair ∧
    (OwnedCall.applyAll PhoneNumberOwnedFilterParams.new cs₂).build =
      cs₂.map OwnedCall.pair ∧
    (SubprojectCall.applyAll SubprojectQueryParams.new cs₃).build =
      cs₃.map SubprojectCall.pair ∧
    (LookupCall.applyAll PhoneLookupParams.new cs₄).build =
      cs₄.map LookupCall.pair ∧
    (PhoneLookupParams.new.with_carrier.with_caller_name).build =
      [("Type", "carrier"), ("Type", "caller-name")] := by
  refine ⟨?_, ?_, ?_, ?_, rfl⟩
  · rw [availApplyAll_build]; rfl
  · rw [ownedApplyAll_build]; rfl
  · rw [subprojectApplyAll_build]; rfl
  · rw [lookupApplyAll_build]; rfl

/-- C7: the canned SMS-send response body deserializes successfully into the
`SmsResponse` schema, with `sid = "SM123"` and status classification
`Queued`. -/
theorem c7_canned_sms_body_round_trip :
    ∃ r : SmsResponse, decodeSmsResponse cannedSmsBody = .ok r ∧
      r.sid = "SM123" ∧ r.get_status = .Queued := by
  refine ⟨_, rfl, rfl, ?_⟩
  decide

/-- C8: the `buy_phone_number` request body is a JSON object with exactly
one field, named `number`, holding the caller-supplied string. -/
theorem c8_buy_request_body_single_field (phone_number : String) :
    buy_phone_number_request_body phone_number =
      Json.obj [("number", Json.str phone_number)] := rfl

/-- C9: no client operation mutates the client: for every operation and
every response (hence every outcome, success or error), the client state
left behind — `project_id`, `api_key`, `space_name` and the transport
handle — equals the original. -/
theorem c9_client_state_unchanged {α : Type} (c : SignalWireClient)
    (sid : String) (parse : String → Except String α) (r : HttpResponse) :
    (get_jwt_call c parse r).1 = c ∧
    (get_phone_numbers_available_call c parse r).1 = c ∧
    (get_phone_numbers_owned_call c parse r).1 = c ∧
    (buy_phone_number_call c parse r).1 = c ∧
    (send_sms_call c parse r).1 = c ∧
    (get_message_status_call c sid parse r).1 = c ∧
    (list_subprojects_call c parse r).1 = c ∧
    (get_subproject_call c sid parse r).1 = c ∧
    (create_subproject_call c parse r).1 = c ∧
    (update_subproject_call c sid parse r).1 = c ∧
    (delete_subproject_call c sid r).1 = c ∧
    (get_subproject_phone_numbers_call c sid parse r).1 = c :=
  ⟨rfl, rfl, rfl, rfl, rfl, rfl, rfl, rfl, rfl, rfl, rfl, rfl⟩

/-- C5: a 404 response on each identifier-addressed endpoint yields
`NotFound` with a message containing the requested identifier, whatever the
body and whatever the parser; the listing/search endpoints do not
special-case 404 and return the generic `Unexpected` error carrying the
body. -/
theorem c5_notfound_on_identifier_endpoints {α : Type} (sid body : String)
    (parse : String → Except String α) :
    (get_message_status sid parse ⟨404, body⟩ =
        .error (.NotFound ("Message with SID " ++ sid ++ " not found")) ∧
      containsStr ("Message with SID " ++ sid ++ " not found") sid) ∧
    (get_subproject sid parse ⟨404, body⟩ =
        .error (.NotFound ("Subproject with SID " ++ sid ++ " not found")) ∧
      containsStr ("Subproject with SID " ++ sid ++ " not found") sid) ∧
    (update_subproject sid parse ⟨404, body⟩ =
        .error (.NotFound ("Subproject with SID " ++ sid ++ " not found"))) ∧
    (delete_subproject sid ⟨404, body⟩ =
        .error (.NotFound ("Subproject with SID " ++ sid ++ " not found"))) ∧
    (get_subproject_phone_numbers sid parse ⟨404, body⟩ =
        .error (.NotFound ("Subproject with SID " ++ sid ++ " not found"))) ∧
    get_phone_numbers_available parse ⟨404, body⟩ = .error (.Unexpected body) ∧
    get_phone_numbers_owned parse ⟨404, body⟩ = .error (.Unexpected body) ∧
    list_subprojects parse ⟨404, body⟩ = .error (.Unexpected body) :=
  ⟨⟨rfl, "Message with SID ", " not found", rfl⟩,
   ⟨rfl, "Subproject with SID ", " not found", rfl⟩,
   rfl, rfl, rfl, rfl, rfl, rfl⟩

/-- C1 is a code bug: `buy_phone_number` and `get_phone_numbers_available`
never check for 401 (client.rs lines 243-253 and 120-130), so a 401
response falls into the generic client-error branch and yields
`Unexpected` carrying the (possibly empty) body — not `Unauthorized` —
whatever the parser would do.  This contradicts `buy_phone_number`'s own
doc comment, "Returns `SignalWireError::Unauthorized` if authentication
fails."  This theorem evaluates the code at the failing input: a 401
response with an empty body. -/
theorem c1_401_bypasses_unauthorized_on_buy_and_available :
    buy_phone_number (fun _ => (Except.error "unused" : Except String Unit))
        ⟨401, ""⟩ = .error (.Unexpected "") ∧
    buy_phone_number (fun _ => (Except.ok () : Except String Unit))
        ⟨401, ""⟩ = .error (.Unexpected "") ∧
    get_phone_numbers_available
        (fun _ => (Except.error "unused" : Except String Unit))
        ⟨401, ""⟩ = .error (.Unexpected "") ∧
    (Except.error (SignalWireError.Unexpected "") :
        Except SignalWireError Unit) ≠ .error .Unauthorized := by
  refine ⟨rfl, rfl, rfl, ?_⟩
  intro h
  simp at h

/-- C2 fails on `get_jwt` (client.rs lines 61-70): it classifies only 401
and has no generic client/server-error branch, so a 500 response proceeds
to body parsing.  Instantiating the serde parameter with its two possible
outcomes at the concrete failing response: if the body happens to parse as
a `JwtResponse` the call *succeeds*, and if parsing fails the `Unexpected`
message is the parse diagnostic (serde emits messages such as "expected
value at line 1 column 1"), not the raw body text required by the claim. -/
theorem c2_get_jwt_generic_error_counterexample :
    get_jwt (fun _ => Except.ok (⟨"tokenA", "tokenB"⟩ : JwtResponse))
        ⟨500, "server exploded"⟩ = .ok ⟨"tokenA", "tokenB"⟩ ∧
    get_jwt
        (fun _ =>
          (Except.error "expected value at line 1 column 1" :
            Except String JwtResponse))
        ⟨500, "server exploded"⟩ =
      .error (.Unexpected "expected value at line 1 column 1") ∧
    (Except.error (SignalWireError.Unexpected "expected value at line 1 column 1") :
        Except SignalWireError JwtResponse) ≠
      .error (.Unexpected "server exploded") := by
  refine ⟨rfl, rfl, ?_⟩
  intro h
  simp at h

/-- C2 amended: for every client operation except `get_jwt`, a 4xx/5xx
response with status other than 401 yields `Unexpected` carrying exactly
the raw body — on the six non-identifier-addressed endpoints this covers
404 as well, and on the five identifier-addressed endpoints it holds for
every status other than 404, which those endpoints classify as `NotFound`.
The result is the same for every parser, so status classification happens
strictly before body parsing, and 401/404 — which also satisfy the
client-error predicate — are classified first.  `get_jwt` special-cases
only 401: any other status collapses to the parse outcome. -/
theorem c2_generic_error_mapping_amended {α : Type} (s : Nat)
    (body sid : String) (parse : String → Except String α)
    (hcs : (isClientError s || isServerError s) = true)
    (h401 : s ≠ 401) :
    get_phone_numbers_available parse ⟨s, body⟩ = .error (.Unexpected body) ∧
    get_phone_numbers_owned parse ⟨s, body⟩ = .error (.Unexpected body) ∧
    buy_phone_number parse ⟨s, body⟩ = .error (.Unexpected body) ∧
    send_sms parse ⟨s, body⟩ = .error (.Unexpected body) ∧
    list_subprojects parse ⟨s, body⟩ = .error (.Unexpected body) ∧
    create_subproject parse ⟨s, body⟩ = .error (.Unexpected body) ∧
    (s ≠ 404 →
      get_message_status sid parse ⟨s, body⟩ = .error (.Unexpected body) ∧
      get_subproject sid parse ⟨s, body⟩ = .error (.Unexpected body) ∧
      update_subproject sid parse ⟨s, body⟩ = .error (.Unexpected body) ∧
      delete_subproject sid ⟨s, body⟩ = .error (.Unexpected body) ∧
      get_subproject_phone_numbers sid parse ⟨s, body⟩ =
        .error (.Unexpected body)) ∧
    (isClientError 401 = true ∧
      get_phone_numbers_owned parse ⟨401, body⟩ = .error .Unauthorized) ∧
    (isClientError 404 = true ∧
      get_subproject sid parse ⟨404, body⟩ =
        .error (.NotFound ("Subproject with SID " ++ sid ++ " not found"))) ∧
    get_jwt parse ⟨s, body⟩ =
      (match parse body with
        | .error e => .error (.Unexpected e)
        | .ok v => .ok v) := by
  refine ⟨?_, ?_, ?_, ?_, ?_, ?_, ?_, ⟨rfl, rfl⟩, ⟨rfl, rfl⟩, ?_⟩
  case _ => simp [get_phone_numbers_available, hcs]
  case _ => simp [get_phone_numbers_owned, h401, hcs]
  case _ => simp [buy_phone_number, hcs]
  case _ => simp [send_sms, h401, hcs]
  case _ => simp [list_subprojects, h401, hcs]
  case _ => simp [create_subproject, h401, hcs]
  case _ =>
    intro h404
    refine ⟨?_, ?_, ?_, ?_, ?_⟩ <;>
      simp [get_message_status, get_subproject, update_subproject,
        delete_subproject, get_subproject_phone_numbers, h401, h404, hcs]
  case _ => simp [get_jwt, h401]

/-- Concrete instances of C2 amended: at a 500 response an operation with
the generic branch returns the raw body (also for an identifier-addressed
endpoint, discharging the 404 side condition), at a 404 response a
non-identifier-addressed endpoint still returns the raw body, and
`get_jwt` at 500 returns the parse diagnostic. -/
theorem c2_generic_error_mapping_amended_witness :
    get_phone_numbers_owned
        (fun _ => (Except.error "diag" : Except String Unit)) ⟨500, "oops"⟩ =
      .error (.Unexpected "oops") ∧
    buy_phone_number
        (fun _ => (Except.error "diag" : Except String Unit)) ⟨404, "missing"⟩ =
      .error (.Unexpected "missing") ∧
    get_subproject "SID1"
        (fun _ => (Except.error "diag" : Except String Unit)) ⟨500, "oops"⟩ =
      .error (.Unexpected "oops") ∧
    get_jwt (fun _ => (Except.error "diag" : Except String Unit))
        ⟨500, "oops"⟩ = .error (.Unexpected "diag") := by
  obtain ⟨h1, h2, h3, h4, h5, h6, h7, h8, h9, h10⟩ :=
    c2_generic_error_mapping_amended 500 "oops" "SID1"
      (fun _ => (Except.error "diag" : Except String Unit))
      (by decide) (by decide)
  obtain ⟨g1, g2, g3, g4, g5, g6, g7, g8, g9, g10⟩ :=
    c2_generic_error_mapping_amended 404 "missing" "SID1"
      (fun _ => (Except.error "diag" : Except String Unit))
      (by decide) (by decide)
  exact ⟨h2, g3, (h7 (by decide)).2.1, h10⟩

/-- C3 fails on `get_jwt` (client.rs line 68): its parse-failure message is
`e.to_string()` alone, without the raw body.  At the concrete failing
input — a 200 response with body `"RAWBODY"` and the serde diagnostic
modelled as `"diag"` (serde diagnostics such as "expected value at line 1
column 1" do not embed the body) — the `Unexpected` message is exactly the
diagnostic and does not contain the raw body text. -/
theorem c3_get_jwt_parse_failure_message_counterexample :
    get_jwt (fun _ => (Except.error "diag" : Except String JwtResponse))
        ⟨200, "RAWBODY"⟩ = .error (.Unexpected "diag") ∧
    ¬ containsStr "diag" "RAWBODY" := by
  constructor
  · rfl
  · rintro ⟨pre, post, h⟩
    have hlen := congrArg String.length h
    have h1 : ("diag" : String).length = 4 := rfl
    have h2 : ("RAWBODY" : String).length = 7 := rfl
    simp only [String.length_append, h1, h2] at hlen
    omega

/-- C3 amended: on a 2xx response whose body fails to parse, every
operation returns `Unexpected` and never a default-valued success; for
`send_sms`, `get_message_status`, `list_subprojects`, `get_subproject`,
`create_subproject`, `update_subproject` and `get_subproject_phone_numbers`
the message is `"Failed to parse response: <diagnostic>. Response was:
<body>"`, which contains both the parser's failure description and the raw
body; for `get_jwt`, `get_phone_numbers_available`,
`get_phone_numbers_owned` and `buy_phone_number` the message is exactly the
parser's failure description, without the raw body. -/
theorem c3_parse_failure_mapping_amended {α : Type} (s : Nat)
    (e body sid : String) (parse : String → Except String α)
    (hs : 200 ≤ s ∧ s ≤ 299) (hp : parse body = .error e) :
    get_jwt parse ⟨s, body⟩ = .error (.Unexpected e) ∧
    get_phone_numbers_available parse ⟨s, body⟩ = .error (.Unexpected e) ∧
    get_phone_numbers_owned parse ⟨s, body⟩ = .error (.Unexpected e) ∧
    buy_phone_number parse ⟨s, body⟩ = .error (.Unexpected e) ∧
    send_sms parse ⟨s, body⟩ =
      .error (.Unexpected
        ("Failed to parse response: " ++ e ++ ". Response was: " ++ body)) ∧
    get_message_status sid parse ⟨s, body⟩ =
      .error (.Unexpected
        ("Failed to parse response: " ++ e ++ ". Response was: " ++ body)) ∧
    list_subprojects parse ⟨s, body⟩ =
      .error (.Unexpected
        ("Failed to parse response: " ++ e ++ ". Response was: " ++ body)) ∧
    get_subproject sid parse ⟨s, body⟩ =
      .error (.Unexpected
        ("Failed to parse response: " ++ e ++ ". Response was: " ++ body)) ∧
    create_subproject parse ⟨s, body⟩ =
      .error (.Unexpected
        ("Failed to parse response: " ++ e ++ ". Response was: " ++ body)) ∧
    update_subproject sid parse ⟨s, body⟩ =
      .error (.Unexpected
        ("Failed to parse response: " ++ e ++ ". Response was: " ++ body)) ∧
    get_subproject_phone_numbers sid parse ⟨s, body⟩ =
      .error (.Unexpected
        ("Failed to parse response: " ++ e ++ ". Response was: " ++ body)) ∧
    containsStr
      ("Failed to parse response: " ++ e ++ ". Response was: " ++ body) e ∧
    containsStr
      ("Failed to parse response: " ++ e ++ ". Response was: " ++ body)
      body := by
  have h401 : s ≠ 401 := by omega
  have h404 : s ≠ 404 := by omega
  have hc : isClientError s = false := by
    simp only [isClientError, Bool.and_eq_false_iff, decide_eq_false_iff_not]
    omega
  have hsv : isServerError s = false := by
    simp only [isServerError, Bool.and_eq_false_iff, decide_eq_false_iff_not]
    omega
  refine ⟨?_, ?_, ?_, ?_, ?_, ?_, ?_, ?_, ?_, ?_, ?_, ?_, ?_⟩
  case _ => simp [get_jwt, h401, hp]
  case _ => simp [get_phone_numbers_available, hc, hsv, hp]
  case _ => simp [get_phone_numbers_owned, h401, hc, hsv, hp]
  case _ => simp [buy_phone_number, hc, hsv, hp]
  case _ => simp [send_sms, h401, hc, hsv, hp]
  case _ => simp [get_message_status, h401, h404, hc, hsv, hp]
  case _ => simp [list_subprojects, h401, hc, hsv, hp]
  case _ => simp [get_subproject, h401, h404, hc, hsv, hp]
  case _ => simp [create_subproject, h401, hc, hsv, hp]
  case _ => simp [update_subproject, h401, h404, hc, hsv, hp]
  case _ => simp [get_subproject_phone_numbers, h401, h404, hc, hsv, hp]
  case _ =>
    refine ⟨"Failed to parse response: ", ". Response was: " ++ body, ?_⟩
    simp [String.append_assoc]
  case _ =>
    refine ⟨"Failed to parse response: " ++ e ++ ". Response was: ", "", ?_⟩
    rw [String.append_empty]

/-- Concrete instance of C3 amended at a 200 response with unparseable
body: `get_jwt` reports only the diagnostic, `send_sms` reports both the
diagnostic and the raw body. -/
theorem c3_parse_failure_mapping_amended_witness :
    get_jwt (fun _ => (Except.error "diag" : Except String Unit))
        ⟨200, "RAW"⟩ = .error (.Unexpected "diag") ∧
    send_sms (fun _ => (Except.error "diag" : Except String Unit))
        ⟨200, "RAW"⟩ =
      .error (.Unexpected "Failed to parse response: diag. Response was: RAW") := by
  obtain ⟨h1, h2, h3, h4, h5, h6, h7, h8, h9, h10, h11, h12, h13⟩ :=
    c3_parse_failure_mapping_amended 200 "diag" "RAW" "SID1"
      (fun _ => (Except.error "diag" : Except String Unit))
      (by decide) rfl
  exact ⟨h1, h5⟩

end SignalWire
